import Mathlib

/-
Verification of the BACnet override and relinquish scripts.

The repository is a collection of Python scripts built on bacpypes3 that
read a commandable property, read and resolve its 16-slot priority array,
write values into priority slots and release slots by writing the NULL
sentinel.  This file embeds the value codec, the priority-array scans and
the relinquish engines of those scripts as executable Lean definitions
and proves or refutes the documented properties.

Modelling conventions.
* A BACnet application-tagged primitive is the inductive `Tagged`; the
  wire payload of a Real is the already quantised IEEE-754 single
  precision value, so the quantisation function `f32round` is applied at
  the moment a host float is wrapped, mirroring the fact that
  bacpypes3 encodes Real with a 4-byte big-endian float at cast-in.
* A Python runtime value is the inductive `HostVal`.  The Python
  subtyping fact that every bool is an int is modelled by `py_is_int`
  returning true on bools; this is what makes the bool branch of the
  write dispatch in re2.py, readw.py and rwsimple1.py dead code.
* `cast_out T` of bacpypes3 decodes the tag list as `T` and raises when
  the application tag does not match; each `cast_out_*` function below
  returns `none` exactly on that structural error, which the sources
  catch with a bare except around every attempt.
* Network interaction is embedded with oracle arguments: a
  `ReadOutcome` or `WriteOutcome` per request stands for what
  `app.request` did (returned a value, raised an application-layer
  error, or produced no response).
* The str rendering that the scripts apply to raw stack objects is
  `py_str_tagged`: bacpypes3 constructed containers render as the
  default object repr, the form the guards at readw.py lines 289 and
  373 test for with "Any object" and that rmov.py line 40 works around
  by probing a value attribute.  That repr carries no content, so in
  particular it never contains the letters NULL; decoded host values,
  by contrast, render content-wise via `py_str_host`.
-/

/-- BACnet application-tagged primitive value, the discriminated union of
the data model: Null, Boolean, Unsigned, Real, CharacterString and
Enumerated, discriminated by the application tag number.  The Real
payload is the quantised single-precision value as a rational. -/
inductive Tagged where
  | null
  | boolean (b : Bool)
  | unsigned (n : ℕ)
  | real (q : ℚ)
  | characterString (s : String)
  | enumerated (n : ℕ)
deriving DecidableEq

/-- Python runtime value as produced and consumed by the scripts:
None, bool, int, float (modelled as a rational) or str. -/
inductive HostVal where
  | none
  | bool (b : Bool)
  | int (n : ℤ)
  | float (q : ℚ)
  | str (s : String)
deriving DecidableEq

/-- Numeric view used by Python equality: bools are the numbers 0 and 1,
ints and floats are their values, None and str are not numbers. -/
def py_num : HostVal → Option ℚ
  | .bool b => some (if b then 1 else 0)
  | .int n => some (n : ℚ)
  | .float q => some q
  | _ => Option.none

/-- Python equality on host values: numbers compare by value across the
bool, int and float families, strings compare by content, None only
equals None, and numbers never equal strings or None. -/
def py_eq (a b : HostVal) : Bool :=
  match py_num a, py_num b with
  | some x, some y => x = y
  | some _, Option.none => false
  | Option.none, some _ => false
  | Option.none, Option.none =>
    match a, b with
    | .str s, .str t => s = t
    | .none, .none => true
    | _, _ => false

/-- Python truthiness: 0, 0.0, False, the empty string and None are
falsy, everything else is truthy. -/
def py_truthy : HostVal → Bool
  | .none => false
  | .bool b => b
  | .int n => n ≠ 0
  | .float q => q ≠ 0
  | .str s => s ≠ ""

/-- Python isinstance(v, float): bools and ints are not floats. -/
def py_is_float : HostVal → Bool
  | .float _ => true
  | _ => false

/-- Python isinstance(v, int): every bool is an int, which is what sends
True down the int branch of the write dispatch in the sources. -/
def py_is_int : HostVal → Bool
  | .int _ => true
  | .bool _ => true
  | _ => false

/-- Python isinstance(v, str). -/
def py_is_str : HostVal → Bool
  | .str _ => true
  | _ => false

/-- Python isinstance(v, bool). -/
def py_is_bool : HostVal → Bool
  | .bool _ => true
  | _ => false

/-- Python int(v) for values on the int branch: the identity on ints and
0 or 1 on bools; other constructors are never passed to it. -/
def py_int_val : HostVal → ℤ
  | .int n => n
  | .bool b => if b then 1 else 0
  | _ => 0

/-- Python str(v) of a host value.  Only two aspects are relied on by the
sources: str(None) is "None", and the renderings of numbers and bools
never contain the letters NULL. -/
def py_str_host : HostVal → String
  | .none => "None"
  | .bool b => if b then "True" else "False"
  | .int n => toString n
  | .float q => toString q
  | .str s => s

/-- Rendering of a raw tagged stack object under str(): bacpypes3
constructed containers do not override the default repr, so every raw
propertyValue renders in the default object form, whatever tag it
holds.  The repository relies on exactly this form: readw.py lines 289
and 373 guard decode results with the test for "Any object" in the
text, and rmov.py line 40 probes a value attribute because str shows no
content.  The memory address that the real repr carries is irrelevant
to every use and omitted; what is load bearing is that the text never
contains the letters NULL and does not equal the sentinel string. -/
def py_str_tagged : Tagged → String :=
  fun _ => "<bacpypes3.constructeddata.Any object at 0x>"

/-- Case-insensitive occurrence of the four letters NULL at the head of
a character list. -/
def null_at_head : List Char → Bool
  | c1 :: c2 :: c3 :: c4 :: _ =>
    (c1 = 'N' || c1 = 'n') && (c2 = 'U' || c2 = 'u') &&
      (c3 = 'L' || c3 = 'l') && (c4 = 'L' || c4 = 'l')
  | _ => false

/-- Case-insensitive containment of the four letters NULL in a character
list. -/
def null_in_chars : List Char → Bool
  | [] => false
  | c :: t => null_at_head (c :: t) || null_in_chars t

/-- Embedding of the Python test `"NULL" in s.upper()`, which for the
ASCII renderings involved is case-insensitive containment of the letters
NULL. -/
def str_has_null_upper (s : String) : Bool :=
  null_in_chars s.toList

/-- Embedding of the Python test `s.upper() == "NULL"`: the string is
exactly the four letters NULL up to case. -/
def str_eq_null_upper (s : String) : Bool :=
  match s.toList with
  | [c1, c2, c3, c4] =>
    (c1 = 'N' || c1 = 'n') && (c2 = 'U' || c2 = 'u') &&
      (c3 = 'L' || c3 = 'l') && (c4 = 'L' || c4 = 'l')
  | _ => false

/-- Integer power of two as a rational, defined for negative exponents
as the reciprocal. -/
def rat_pow2 (k : ℤ) : ℚ :=
  if 0 ≤ k then ((2 : ℚ) ^ k.toNat) else (((2 : ℚ) ^ (-k).toNat))⁻¹

/-- Fuelled binary-exponent search: for a positive rational q it returns
e with 2 ^ e ≤ q < 2 ^ (e + 1).  The fuel of 64 covers every exponent
reachable by the property values these scripts read and write. -/
def floor_log2_go (fuel : ℕ) (q : ℚ) (e : ℤ) : ℤ :=
  match fuel with
  | 0 => e
  | f + 1 =>
    if 1 ≤ q ∧ q < 2 then e
    else floor_log2_go f (if q < 1 then q * 2 else q / 2) (if q < 1 then e - 1 else e + 1)

/-- Binary exponent of a positive rational. -/
def floor_log2 (q : ℚ) : ℤ :=
  floor_log2_go 64 q 0

/-- Round to nearest integer, ties to even, the IEEE-754 default. -/
def round_half_even (x : ℚ) : ℤ :=
  let n := ⌊x⌋
  let r := x - (n : ℚ)
  if r < 1 / 2 then n
  else if 1 / 2 < r then n + 1
  else if n % 2 = 0 then n else n + 1

/-- Quantisation of a positive rational to the 24-bit significand of an
IEEE-754 single-precision float, the rounding performed when bacpypes3
packs a Real payload with struct.pack of a big-endian f32. -/
def f32round_pos (q : ℚ) : ℚ :=
  let e := floor_log2 q
  let scale := rat_pow2 (23 - e)
  (round_half_even (q * scale) : ℚ) / scale

/-- Quantisation of a rational to IEEE-754 single precision (normal
range; the scripts never reach the subnormal, overflow or non-finite
cases). -/
def f32round (q : ℚ) : ℚ :=
  if q = 0 then 0
  else if q < 0 then -(f32round_pos (-q))
  else f32round_pos q

/-- Structural success of a bacpypes3 cast_out as Boolean: the cast
decodes the tag list and raises unless the application tag is the
Boolean tag; on success the scripts convert with bool(). -/
def cast_out_boolean : Tagged → Option HostVal
  | .boolean b => some (.bool b)
  | _ => Option.none

/-- Structural success of cast_out as Unsigned, converted with int(). -/
def cast_out_unsigned : Tagged → Option HostVal
  | .unsigned n => some (.int n)
  | _ => Option.none

/-- Structural success of cast_out as Real, converted with float(). -/
def cast_out_real : Tagged → Option HostVal
  | .real q => some (.float q)
  | _ => Option.none

/-- Structural success of cast_out as CharacterString, converted with
str(). -/
def cast_out_character_string : Tagged → Option HostVal
  | .characterString s => some (.str s)
  | _ => Option.none

/-- Structural success of cast_out as Enumerated, converted with
int(). -/
def cast_out_enumerated : Tagged → Option HostVal
  | .enumerated n => some (.int n)
  | _ => Option.none

/-- Embedding of is_null_value from re2.py lines 14 to 18: None is NULL,
otherwise the test is whether the upper-cased str rendering of the raw
object contains the text NULL. -/
def is_null_value (v : Option Tagged) : Bool :=
  match v with
  | Option.none => true
  | some t => str_has_null_upper (py_str_tagged t)

/-- Embedding of extract_priority_value from re2.py lines 20 to 60: an
absent value gives the host string NULL, and so would any input that
is_null_value recognised; then the casts Unsigned, Real, Boolean are
attempted in that order, each guarded by a bare except, and the
fallback is the str rendering of the raw value.  Because raw containers
render as the default repr, the is_null_value branch never fires on a
present value, NULL tag included. -/
def extract_priority_value (v : Option Tagged) : HostVal :=
  match v with
  | Option.none => .str "NULL"
  | some t =>
    if is_null_value (some t) then .str "NULL"
    else
      match cast_out_unsigned t with
      | some h => h
      | Option.none =>
        match cast_out_real t with
        | some h => h
        | Option.none =>
          match cast_out_boolean t with
          | some h => h
          | Option.none => .str (py_str_tagged t)

/-- Embedding of extract_value from re2.py lines 62 to 106 (identical in
re3.py): None gives None, then the casts Boolean, Unsigned, Real,
CharacterString are attempted in that order, each guarded by a bare
except; Enumerated is imported but never attempted; the fallback inside
the try block is the str rendering of the raw value. -/
def extract_value_re2 (v : Option Tagged) : HostVal :=
  match v with
  | Option.none => .none
  | some t =>
    match cast_out_boolean t with
    | some h => h
    | Option.none =>
      match cast_out_unsigned t with
      | some h => h
      | Option.none =>
        match cast_out_real t with
        | some h => h
        | Option.none =>
          match cast_out_character_string t with
          | some h => h
          | Option.none => .str (py_str_tagged t)

/-- Embedding of extract_value from reset1.py lines 14 to 50 (identical
in reset2.py, reset3.py and reset4.py): None gives None, then the casts
Real, Unsigned, CharacterString are attempted in that order; Boolean and
Enumerated are never attempted; the fallback is the str rendering. -/
def extract_value_reset (v : Option Tagged) : HostVal :=
  match v with
  | Option.none => .none
  | some t =>
    match cast_out_real t with
    | some h => h
    | Option.none =>
      match cast_out_unsigned t with
      | some h => h
      | Option.none =>
        match cast_out_character_string t with
        | some h => h
        | Option.none => .str (py_str_tagged t)

/-- Raw tag-data branch of extract_value in readw.py lines 92 to 110:
it is reached only when every cast failed, which in the tagged universe
means the NULL tag, whose tag data is empty, so none of the length 1, 2
or 4 cases fires and the branch falls through. -/
def readw_raw_tag_data : Tagged → Option HostVal :=
  fun _ => Option.none

/-- Embedding of extract_value from readw.py lines 17 to 117 (identical
in rwsimple1.py except for the trailing unit and raw-data branches): a
bacpypes3 Any exposes a tag list, not a value attribute, so the leading
hasattr guard falls through; then the casts Real, Unsigned,
CharacterString, Boolean, Enumerated are attempted in that order; the
EngineeringUnits attempt can only fire on the Enumerated tag, which the
Enumerated cast has already consumed; then the raw tag-data branch, then
the str fallback. -/
def extract_value_readw (v : Option Tagged) : HostVal :=
  match v with
  | Option.none => .none
  | some t =>
    match cast_out_real t with
    | some h => h
    | Option.none =>
      match cast_out_unsigned t with
      | some h => h
      | Option.none =>
        match cast_out_character_string t with
        | some h => h
        | Option.none =>
          match cast_out_boolean t with
          | some h => h
          | Option.none =>
            match cast_out_enumerated t with
            | some h => h
            | Option.none =>
              match readw_raw_tag_data t with
              | some h => h
              | Option.none => .str (py_str_tagged t)

/-- Spec-words decoder for comparison (spec section 4.1, steps 1 to 3):
the NULL tag decodes to the sentinel, otherwise the casts Boolean,
Unsigned, Real, CharacterString, Enumerated are attempted in that
priority order and the first success is the decoded value; step 3 falls
back to the opaque string.  Written from the words of the spec, to be
compared with the decoders embedded from the sources. -/
def claimed_decode (t : Tagged) : HostVal :=
  match cast_out_boolean t with
  | some h => h
  | Option.none =>
    match cast_out_unsigned t with
    | some h => h
    | Option.none =>
      match cast_out_real t with
      | some h => h
      | Option.none =>
        match cast_out_character_string t with
        | some h => h
        | Option.none =>
          match cast_out_enumerated t with
          | some h => h
          | Option.none => .str (py_str_tagged t)

/-- Embedding of the value conversion in write_property from re2.py
lines 136 to 146 (identical in readw.py, rwsimple1.py and rwmodest.py):
an isinstance chain over float, int, str, bool with a str(value)
default.  Python bools satisfy the int test, so the bool branch is
unreachable; Unsigned construction raises on a negative int, which the
surrounding except turns into a failed write, modelled by none. -/
def write_property_value_re2 (v : HostVal) : Option Tagged :=
  if py_is_float v then some (.real (f32round (match v with | .float q => q | _ => 0)))
  else if py_is_int v then
    (if 0 ≤ py_int_val v then some (.unsigned (py_int_val v).toNat) else Option.none)
  else if py_is_str v then some (.characterString (match v with | .str s => s | _ => ""))
  else if py_is_bool v then some (.boolean (match v with | .bool b => b | _ => false))
  else some (.characterString (py_str_host v))

/-- Embedding of the value conversion in write_single_value from rw4.py
lines 45 to 48: None becomes the NULL tag, every other value is passed
to the Real constructor, which accepts floats, ints and bools and
raises on a string (modelled by none; rw4.py does not catch it). -/
def write_single_value_rw4 (v : HostVal) : Option Tagged :=
  match v with
  | .none => some Tagged.null
  | .float q => some (.real (f32round q))
  | .int n => some (.real (f32round (n : ℚ)))
  | .bool b => some (.real (if b then 1 else 0))
  | .str _ => Option.none

/-- Outcome of a read request at the stack boundary: the stack returned
a raw tagged value, raised an application-layer error, or produced no
response. -/
inductive ReadOutcome where
  | ok (t : Tagged)
  | appError
  | noResponse
deriving DecidableEq

/-- Outcome of a write request at the stack boundary: a simple
acknowledgment, a raised application-layer error or reject, or no
response. -/
inductive WriteOutcome where
  | ack
  | reject
  | noResponse
deriving DecidableEq

/-- Embedding of read_property from re2.py lines 108 to 129: the raw
property value of a response is returned; a falsy response gives None
and a raised error is caught, printed and also turned into None. -/
def read_property_re2 (r : ReadOutcome) : Option Tagged :=
  match r with
  | .ok t => some t
  | .appError => Option.none
  | .noResponse => Option.none

/-- Embedding of write_property from re2.py lines 131 to 169: a failed
value conversion raises and is caught, giving False; otherwise the
request is sent and the result is whether the response is not None;
a raised reject is caught, printed and turned into False. -/
def write_property_re2 (v : HostVal) (r : WriteOutcome) : Bool :=
  match write_property_value_re2 v with
  | Option.none => false
  | some _ =>
    match r with
    | .ack => true
    | .reject => false
    | .noResponse => false

/-- Relinquish encodings appearing across the scripts: the NULL
application tag inside the value container, a request with the property
value omitted, an empty tag-list container, and the literal
CharacterString "Null". -/
inductive WStrategy where
  | nullTagAny
  | omittedValue
  | emptyContainer
  | nullString
deriving DecidableEq

/-- Embedding of simple_relinquish from re3.py lines 119 to 237: three
write attempts are issued in the fixed order omitted value (method 1),
NULL tag in Any (method 2), CharacterString "Null" (method 3); every
attempt is wrapped in its own try and except, no attempt is skipped on
a previous success or failure, and the function returns True whatever
the device answered.  The oracle gives the device answer per
strategy. -/
def simple_relinquish_re3 (dev : WStrategy → WriteOutcome) :
    List (WStrategy × WriteOutcome) × Bool :=
  let a1 := (WStrategy.omittedValue, dev WStrategy.omittedValue)
  let a2 := (WStrategy.nullTagAny, dev WStrategy.nullTagAny)
  let a3 := (WStrategy.nullString, dev WStrategy.nullString)
  ([a1, a2, a3], true)

/-- Spec-words relinquish engine for comparison (spec sections 4.3 and
8): strategies are tried in the fixed order NULL tag, omitted value,
empty container, each at most once, stopping at the first write whose
response is a plain acknowledgment; a reject counts as failure and the
engine moves on.  Written from the words of the spec, to be compared
with the relinquish functions embedded from the sources. -/
def claimed_relinquish_go (dev : WStrategy → WriteOutcome) :
    List WStrategy → List (WStrategy × WriteOutcome) × Bool
  | [] => ([], false)
  | s :: rest =>
    match dev s with
    | .ack => ([(s, WriteOutcome.ack)], true)
    | o =>
      let r := claimed_relinquish_go dev rest
      ((s, o) :: r.1, r.2)

/-- Spec-words relinquish engine applied to the strategy order stated in
the spec. -/
def claimed_relinquish (dev : WStrategy → WriteOutcome) :
    List (WStrategy × WriteOutcome) × Bool :=
  claimed_relinquish_go dev
    [WStrategy.nullTagAny, WStrategy.omittedValue, WStrategy.emptyContainer]

/-- Network actions observable in relinquish_priority from re2.py:
the single empty-container write, the fixed settle sleep of half a
second, the presentValue re-read and the sixteen priority-slot
re-reads. -/
inductive Act where
  | writeEmptyContainer
  | settleSleep
  | readPresentValue
  | readSlot (i : ℕ)
deriving DecidableEq

/-- Result of relinquish_priority from re2.py lines 242 to 297: the one
empty-container write is sent; on an acknowledgment the function sleeps,
re-reads presentValue and the priority array, prints what it read and
returns True without comparing anything; on no response it returns
False, and a raised reject is caught, printed and turned into False.
The read oracles are accepted and ignored, mirroring that the re-read
values only reach print. -/
def relinquish_priority_re2 (w : WriteOutcome) (rp : ReadOutcome)
    (slots : Fin 16 → ReadOutcome) : Bool :=
  match w with
  | .ack => true
  | .reject => false
  | .noResponse => false

/-- Action trace of relinquish_priority from re2.py: one write, then on
acknowledgment the settle sleep, the presentValue re-read and the
sixteen slot re-reads of read_priority_array. -/
def relinquish_priority_re2_acts (w : WriteOutcome) : List Act :=
  match w with
  | .ack =>
    [Act.writeEmptyContainer, Act.settleSleep, Act.readPresentValue] ++
      (List.range 16).map (fun i => Act.readSlot (i + 1))
  | .reject => [Act.writeEmptyContainer]
  | .noResponse => [Act.writeEmptyContainer]

/-- Classification printed by release_priority in rmov.py lines 173 to
238: release verified, acknowledged but the slot did not change, or
failure without a response. -/
inductive RmovReport where
  | releasedVerified
  | ackButUnchanged
  | failedNoResponse
deriving DecidableEq

/-- Null test of read_priority_array in rmov.py lines 23 to 48 combined
with the comparison in release_priority line 230: a returned value whose
upper-cased str rendering is exactly NULL becomes the string NULL, which
the caller compares for equality; a missing response becomes None and an
error becomes an error string, neither of which equals NULL. -/
def rmov_read_slot_is_null (r : ReadOutcome) : Bool :=
  match r with
  | .ok t => str_eq_null_upper (py_str_tagged t)
  | .appError => false
  | .noResponse => false

/-- Embedding of release_priority from rmov.py lines 173 to 238: the
omitted-value write is sent; on an acknowledgment the function sleeps
one second, re-reads the affected slot and prints released when the slot
reads back as NULL and a warning otherwise; without an acknowledgment it
prints a failure.  In every case the function only prints and returns
nothing, so the classification below is the printed report. -/
def release_priority_rmov (w : WriteOutcome) (slot : ReadOutcome) : RmovReport :=
  match w with
  | .ack =>
    if rmov_read_slot_is_null slot then RmovReport.releasedVerified
    else RmovReport.ackButUnchanged
  | .reject => RmovReport.failedNoResponse
  | .noResponse => RmovReport.failedNoResponse

/-- Active-slot test of read_priority_array in re3.py line 94, reset3.py
line 118 and reset4.py line 116: the decoded value must be truthy and
its upper-cased str rendering must not contain NULL.  Python falsiness
of 0, 0.0, False and the empty string makes genuinely commanded zero
values fail this test. -/
def scan_slot_active (h : HostVal) : Bool :=
  py_truthy h && !str_has_null_upper (py_str_host h)

/-- Embedding of the scan loop of read_priority_array in reset3.py
lines 114 to 122 and reset4.py lines 112 to 120: slots 1 to 16 are read
individually, decoded with the reset-family extract_value, and the
pairs of slot number and decoded value that pass the active test are
collected in scan order.  The scan of re3.py lines 90 to 98 is the same
loop with the identical active-slot gate, only decoding with the re2
family extract_value instead. -/
def read_priority_array_active (raws : Fin 16 → Option Tagged) :
    List (ℕ × HostVal) :=
  (List.finRange 16).filterMap (fun i =>
    if scan_slot_active (extract_value_reset (raws i))
    then some ((i : ℕ) + 1, extract_value_reset (raws i))
    else Option.none)

/-- Python min with key on the slot number, as used on line 107 of
re3.py: the first pair with the least slot number, or none on the empty
list, which the source guards with a truthiness test. -/
def pick_min_slot : List (ℕ × HostVal) → Option (ℕ × HostVal)
  | [] => Option.none
  | p :: rest => some (rest.foldl (fun acc x => if x.1 < acc.1 then x else acc) p)

/-- Scan of a slot-value list in priority order: the first value that is
not the NULL sentinel, or the default when every slot is NULL. -/
def scan_slots : List Tagged → Tagged → Tagged
  | [], d => d
  | v :: rest, d => if v = Tagged.null then scan_slots rest d else v

/-- Modelled from the spec: resolveEffective (spec section 4.2) has no
direct counterpart under src; re2.py computes the minimum active slot of
the scan without the relinquishDefault fallback, and reset2.py reads
relinquishDefault separately.  Following the words of the spec, the
sixteen slots are scanned from index 1 to index 16 and the first
non-NULL value wins, with the relinquish default as the fallback. -/
def resolveEffective (arr : Fin 16 → Tagged) (relinquishDefault : Tagged) : Tagged :=
  scan_slots ((List.finRange 16).map arr) relinquishDefault

theorem scan_slots_spec (d : Tagged) :
    ∀ l : List Tagged,
      ((∀ v ∈ l, v = Tagged.null) ∧ scan_slots l d = d) ∨
      (∃ k : ℕ, ∃ hk : k < l.length, l.get ⟨k, hk⟩ ≠ Tagged.null ∧
        (∀ (j : ℕ) (hj : j < l.length), j < k → l.get ⟨j, hj⟩ = Tagged.null) ∧
        scan_slots l d = l.get ⟨k, hk⟩) := by
  intro l
  induction l with
  | nil => exact Or.inl ⟨by simp, rfl⟩
  | cons v rest ih =>
    by_cases hv : v = Tagged.null
    · subst hv
      rcases ih with ⟨hall, hd⟩ | ⟨k, hk, hne, hbefore, heq⟩
      · refine Or.inl ⟨?_, ?_⟩
        · intro w hw
          rcases List.mem_cons.mp hw with h | h
          · exact h
          · exact hall w h
        · simpa [scan_slots] using hd
      · refine Or.inr ⟨k + 1, by simpa using Nat.succ_lt_succ hk, ?_, ?_, ?_⟩
        · simpa using hne
        · intro j hj hjk
          cases j with
          | zero => simp
          | succ j =>
            have hj2 : j < rest.length := by simpa using hj
            simpa using hbefore j hj2 (Nat.lt_of_succ_lt_succ hjk)
        · simpa [scan_slots] using heq
    · refine Or.inr ⟨0, by simp, by simpa using hv, ?_, ?_⟩
      · intro j hj hj0
        exact absurd hj0 (Nat.not_lt_zero j)
      · simp [scan_slots, hv]

/-- C1.  For every 16-slot priority array and every relinquish default,
resolveEffective returns the value of the lowest-indexed slot whose
value is not Null, scanning the slots in index order; if all sixteen
slots are Null it returns the relinquish default. -/
theorem resolve_effective_lowest_non_null (arr : Fin 16 → Tagged) (d : Tagged) :
    ((∀ i : Fin 16, arr i = Tagged.null) ∧ resolveEffective arr d = d) ∨
    (∃ i : Fin 16, arr i ≠ Tagged.null ∧
      (∀ j : Fin 16, j < i → arr j = Tagged.null) ∧
      resolveEffective arr d = arr i) := by
  have hget : ∀ (k : ℕ) (hk : k < ((List.finRange 16).map arr).length),
      ((List.finRange 16).map arr).get ⟨k, hk⟩ = arr ⟨k, by simpa using hk⟩ := by
    intro k hk
    simp [List.get_eq_getElem, List.getElem_map, List.getElem_finRange]
  rcases scan_slots_spec d ((List.finRange 16).map arr) with ⟨hall, hd⟩ | ⟨k, hk, hne, hbefore, heq⟩
  · refine Or.inl ⟨?_, hd⟩
    intro i
    exact hall (arr i) (List.mem_map.mpr ⟨i, List.mem_finRange i, rfl⟩)
  · refine Or.inr ⟨⟨k, by simpa using hk⟩, ?_, ?_, ?_⟩
    · simpa [hget k hk] using hne
    · intro j hj
      have hj16 : (j : ℕ) < ((List.finRange 16).map arr).length := by simp
      have := hbefore j hj16 hj
      simpa [hget j hj16] using this
    · simpa [resolveEffective, hget k hk] using heq

/-- C6.  A raw NULL-tagged property value renders as the default object
repr, which contains no NULL text, so is_null_value does not recognise
it; every cast then fails structurally and extract_priority_value
returns the opaque fallback string for the NULL tag, not the NULL
sentinel, exactly the result the documented decode rule forbids.  Only
an absent value reaches the sentinel. -/
theorem null_tag_misses_null_check :
    is_null_value (some Tagged.null) = false ∧
    extract_priority_value (some Tagged.null) = HostVal.str (py_str_tagged Tagged.null) ∧
    extract_priority_value (some Tagged.null) ≠ HostVal.str "NULL" ∧
    extract_priority_value Option.none = HostVal.str "NULL" :=
  ⟨by decide, by decide, by decide, rfl⟩

/-- C7.  The decoders are total functions into host values, and whenever
every cast they attempt fails structurally they return the opaque str
rendering of the raw value as an ordinary success: the re2 decoder when
the Boolean, Unsigned, Real and CharacterString casts all fail, and the
reset-family decoder when the Real, Unsigned and CharacterString casts
all fail.  Every cast attempt sits in its own bare except and the outer
bare except also returns a string, so no exception escapes to the
caller. -/
theorem extract_value_total_fallback (t : Tagged) :
    (cast_out_boolean t = Option.none ∧ cast_out_unsigned t = Option.none ∧
        cast_out_real t = Option.none ∧ cast_out_character_string t = Option.none →
      extract_value_re2 (some t) = HostVal.str (py_str_tagged t)) ∧
    (cast_out_real t = Option.none ∧ cast_out_unsigned t = Option.none ∧
        cast_out_character_string t = Option.none →
      extract_value_reset (some t) = HostVal.str (py_str_tagged t)) := by
  constructor
  · rintro ⟨h1, h2, h3, h4⟩
    simp [extract_value_re2, h1, h2, h3, h4]
  · rintro ⟨h1, h2, h3⟩
    simp [extract_value_reset, h1, h2, h3]

/-- Witness for C7 at the NULL tag, on which every cast fails and both
decoders fall back to the opaque rendering. -/
theorem extract_value_total_fallback_witness :
    extract_value_re2 (some Tagged.null) = HostVal.str (py_str_tagged Tagged.null) ∧
    extract_value_reset (some Tagged.null) = HostVal.str (py_str_tagged Tagged.null) :=
  ⟨(extract_value_total_fallback Tagged.null).1 ⟨rfl, rfl, rfl, rfl⟩,
   (extract_value_total_fallback Tagged.null).2 ⟨rfl, rfl, rfl⟩⟩

theorem pick_min_slot_mem (l : List (ℕ × HostVal)) (p : ℕ × HostVal)
    (h : pick_min_slot l = some p) : p ∈ l := by
  match l with
  | [] => simp [pick_min_slot] at h
  | q :: rest =>
    have hfold : ∀ (r : List (ℕ × HostVal)) (a : ℕ × HostVal),
        r.foldl (fun acc x => if x.1 < acc.1 then x else acc) a = a ∨
        r.foldl (fun acc x => if x.1 < acc.1 then x else acc) a ∈ r := by
      intro r
      induction r with
      | nil => intro a; exact Or.inl rfl
      | cons x xs ih =>
        intro a
        rcases ih (if x.1 < a.1 then x else a) with h1 | h1
        · by_cases hx : x.1 < a.1
          · right
            rw [List.foldl_cons, h1]
            simp [hx]
          · left
            rw [List.foldl_cons, h1]
            simp [hx]
        · right
          rw [List.foldl_cons]
          exact List.mem_cons_of_mem x h1
    have hp : p = rest.foldl (fun acc x => if x.1 < acc.1 then x else acc) q := by
      simpa [pick_min_slot] using h.symm
    rcases hfold rest q with h1 | h1
    · rw [hp, h1]; exact List.mem_cons_self q rest
    · rw [hp]; exact List.mem_cons_of_mem q h1

/-- C10.  In the priority scans of re3.py, reset3.py and reset4.py a
slot whose decoded value is falsy in Python, such as 0, 0.0, False or
the empty string, is excluded from the active-priority list even when
the device reported a genuine non-Null commanded value, and therefore
the minimum-index selection that resolves the winning priority never
picks it. -/
theorem falsy_slot_excluded (raws : Fin 16 → Option Tagged) (i : Fin 16)
    (h : py_truthy (extract_value_reset (raws i)) = false) :
    ((read_priority_array_active raws).all (fun p => p.1 ≠ (i : ℕ) + 1)) = true ∧
    (pick_min_slot (read_priority_array_active raws)).map Prod.fst ≠ some ((i : ℕ) + 1) := by
  have hall : ∀ p ∈ read_priority_array_active raws, p.1 ≠ (i : ℕ) + 1 := by
    intro p hp
    rcases List.mem_filterMap.mp hp with ⟨j, _, hj⟩
    by_cases hs : scan_slot_active (extract_value_reset (raws j))
    · rw [if_pos hs] at hj
      cases hj
      intro hcontra
      have hji : j = i := Fin.ext (Nat.succ_injective hcontra)
      rw [hji] at hs
      simp [scan_slot_active, h] at hs
    · rw [if_neg hs] at hj
      exact absurd hj (by simp)
  constructor
  · exact List.all_eq_true.mpr (fun p hp => by simpa using hall p hp)
  · intro hcontra
    match hpick : pick_min_slot (read_priority_array_active raws) with
    | Option.none => rw [hpick] at hcontra; simp at hcontra
    | some p =>
      rw [hpick] at hcontra
      have hmem := pick_min_slot_mem _ p hpick
      have hne := hall p hmem
      simp at hcontra
      exact hne (by simpa using hcontra)

/-- Witness for C10: a device reporting the genuine commanded Real value
0.0 in every slot; the scan classifies slot 1 as inactive and no
minimum-index selection picks it. -/
theorem falsy_slot_excluded_witness :
    ((read_priority_array_active (fun _ => some (Tagged.real 0))).all
        (fun p => p.1 ≠ ((0 : Fin 16) : ℕ) + 1)) = true ∧
    (pick_min_slot (read_priority_array_active (fun _ => some (Tagged.real 0)))).map
        Prod.fst ≠ some (((0 : Fin 16) : ℕ) + 1) :=
  falsy_slot_excluded (fun _ => some (Tagged.real 0)) 0 (by decide)

set_option maxRecDepth 40000 in
/-- Evaluation of the binary exponent of 3.14. -/
theorem floor_log2_pi : floor_log2 (157 / 50) = 1 := by
  norm_num [floor_log2, floor_log2_go]

/-- Evaluation of the single-precision rounding at 3.14: the nearest
representable value is 13170115 over 2 to the 22. -/
theorem f32round_pi : f32round (157 / 50) = 13170115 / 4194304 := by
  rw [f32round, if_neg (by norm_num), if_neg (by norm_num)]
  simp only [f32round_pos, floor_log2_pi]
  have hsc : rat_pow2 (23 - 1) = 4194304 := by
    rw [rat_pow2, if_pos (by norm_num)]
    norm_num [show Int.toNat 22 = 22 from rfl]
  rw [hsc]
  have harg : (157 : ℚ) / 50 * 4194304 = 329252864 / 25 := by norm_num
  rw [harg]
  have hround : round_half_even (329252864 / 25) = 13170115 := by
    rw [round_half_even]
    have hfloor : ⌊(329252864 : ℚ) / 25⌋ = 13170114 := by norm_num
    simp only [hfloor]
    norm_num
  rw [hround]
  norm_num

/-- C3 counterexample.  The write dispatch of re2.py encodes the bool
True as Unsigned 1, not as Boolean, because the isinstance int test
fires on bools before the bool test is reached. -/
theorem encode_bool_not_boolean :
    write_property_value_re2 (HostVal.bool true) = some (Tagged.unsigned 1) ∧
    Tagged.unsigned 1 ≠ Tagged.boolean true :=
  ⟨rfl, by decide⟩

/-- C3 amended.  The dispatch of write_property in re2.py maps floats to
Real, ints and bools to Unsigned (negative ints raise and abort the
write), strings to CharacterString and every remaining value, including
the None release sentinel, to the CharacterString rendering of str; its
Boolean branch is dead.  Only write_single_value in rw4.py maps the
None sentinel to the NULL tag, and it maps every other value through
the Real constructor, which raises on strings. -/
theorem encode_dispatch_actual (b : Bool) (n : ℤ) (q : ℚ) (s : String) :
    write_property_value_re2 (HostVal.bool b) =
      some (Tagged.unsigned (if b then 1 else 0)) ∧
    write_property_value_re2 (HostVal.float q) = some (Tagged.real (f32round q)) ∧
    write_property_value_re2 (HostVal.int n) =
      (if 0 ≤ n then some (Tagged.unsigned n.toNat) else Option.none) ∧
    write_property_value_re2 (HostVal.str s) = some (Tagged.characterString s) ∧
    write_property_value_re2 HostVal.none = some (Tagged.characterString "None") ∧
    write_single_value_rw4 HostVal.none = some Tagged.null ∧
    write_single_value_rw4 (HostVal.float q) = some (Tagged.real (f32round q)) ∧
    write_single_value_rw4 (HostVal.int n) = some (Tagged.real (f32round (n : ℚ))) ∧
    write_single_value_rw4 (HostVal.bool b) =
      some (Tagged.real (if b then 1 else 0)) ∧
    write_single_value_rw4 (HostVal.str s) = Option.none := by
  refine ⟨?_, rfl, rfl, rfl, rfl, rfl, rfl, rfl, rfl, rfl⟩
  cases b <;> rfl

/-- C4 counterexample.  On an Enumerated-tagged input the decoder of
re2.py returns the opaque string fallback because it never attempts the
Enumerated cast, and on a Boolean-tagged input the reset-family decoder
returns the opaque fallback for the same reason; the spec-words decoder
returns the values of those casts. -/
theorem decode_order_counterexample :
    extract_value_re2 (some (Tagged.enumerated 3)) ≠ claimed_decode (Tagged.enumerated 3) ∧
    extract_value_reset (some (Tagged.boolean true)) ≠ claimed_decode (Tagged.boolean true) :=
  ⟨by decide, by decide⟩

/-- C4 amended.  The decoded value of every decoder is determined by the
application tag of the input, because each cast succeeds exactly on its
own tag: the re2.py decoder maps Boolean, Unsigned, Real and
CharacterString tags to the corresponding host values and both the NULL
and the Enumerated tag to the opaque fallback, never attempting an
Enumerated cast; the reset-family decoder additionally sends Boolean
tags to the fallback, attempting only Real, Unsigned and
CharacterString; the readw.py decoder attempts Real, Unsigned,
CharacterString, Boolean and Enumerated, in that order, and sends only
the NULL tag to the fallback. -/
theorem decode_order_actual (b : Bool) (n : ℕ) (q : ℚ) (s : String) :
    extract_value_re2 (some (Tagged.boolean b)) = HostVal.bool b ∧
    extract_value_re2 (some (Tagged.unsigned n)) = HostVal.int n ∧
    extract_value_re2 (some (Tagged.real q)) = HostVal.float q ∧
    extract_value_re2 (some (Tagged.characterString s)) = HostVal.str s ∧
    extract_value_re2 (some (Tagged.enumerated n)) =
      HostVal.str (py_str_tagged (Tagged.enumerated n)) ∧
    extract_value_re2 (some Tagged.null) = HostVal.str (py_str_tagged Tagged.null) ∧
    extract_value_reset (some (Tagged.boolean b)) =
      HostVal.str (py_str_tagged (Tagged.boolean b)) ∧
    extract_value_reset (some (Tagged.unsigned n)) = HostVal.int n ∧
    extract_value_reset (some (Tagged.real q)) = HostVal.float q ∧
    extract_value_reset (some (Tagged.characterString s)) = HostVal.str s ∧
    extract_value_reset (some (Tagged.enumerated n)) =
      HostVal.str (py_str_tagged (Tagged.enumerated n)) ∧
    extract_value_readw (some (Tagged.boolean b)) = HostVal.bool b ∧
    extract_value_readw (some (Tagged.unsigned n)) = HostVal.int n ∧
    extract_value_readw (some (Tagged.real q)) = HostVal.float q ∧
    extract_value_readw (some (Tagged.characterString s)) = HostVal.str s ∧
    extract_value_readw (some (Tagged.enumerated n)) = HostVal.int n ∧
    extract_value_readw (some Tagged.null) = HostVal.str (py_str_tagged Tagged.null) :=
  ⟨rfl, rfl, rfl, rfl, rfl, rfl, rfl, rfl, rfl, rfl, rfl, rfl, rfl, rfl, rfl, rfl, rfl⟩

/-- Round trip of the re2.py codec: encode with the write_property
dispatch, decode with extract_value. -/
def round_trip_re2 (v : HostVal) : HostVal :=
  extract_value_re2 (write_property_value_re2 v)

/-- C5 counterexample.  Encoding the float 3.14 packs the Real payload
into single precision, so decoding returns the rounded value and the
Python equality of the round trip with the original 3.14 is false. -/
theorem roundtrip_pi_fails :
    py_eq (round_trip_re2 (HostVal.float (157 / 50))) (HostVal.float (157 / 50)) = false := by
  have h : round_trip_re2 (HostVal.float (157 / 50)) =
      HostVal.float (13170115 / 4194304) := by
    simp [round_trip_re2, write_property_value_re2, py_is_float, f32round_pi,
      extract_value_re2, cast_out_boolean, cast_out_unsigned, cast_out_real]
  rw [h]
  simp only [py_eq, py_num]
  norm_num

/-- C5 amended.  The round trip of the re2.py codec reproduces 17,
"hello" and the bool True under Python equality, the bool returning as
the Python-equal int 1 rather than as a bool; the float 3.14 returns as
the single-precision rounding 13170115 over 2 to the 22, which is not
Python-equal to 3.14, and in general a float returns exactly its
single-precision quantisation. -/
theorem roundtrip_actual :
    round_trip_re2 (HostVal.bool true) = HostVal.int 1 ∧
    py_eq (round_trip_re2 (HostVal.bool true)) (HostVal.bool true) = true ∧
    round_trip_re2 (HostVal.int 17) = HostVal.int 17 ∧
    round_trip_re2 (HostVal.str "hello") = HostVal.str "hello" ∧
    round_trip_re2 (HostVal.float (157 / 50)) = HostVal.float (13170115 / 4194304) ∧
    py_eq (round_trip_re2 (HostVal.float (157 / 50))) (HostVal.float (157 / 50)) = false ∧
    (∀ q : ℚ, round_trip_re2 (HostVal.float q) = HostVal.float (f32round q)) := by
  refine ⟨rfl, by decide, rfl, rfl, ?_, roundtrip_pi_fails, fun q => rfl⟩
  simp [round_trip_re2, write_property_value_re2, py_is_float, f32round_pi,
    extract_value_re2, cast_out_boolean, cast_out_unsigned, cast_out_real]

/-- C2 counterexample.  Against a device that accepts every write, the
spec-words engine stops after one accepted NULL-tag write, while
simple_relinquish of re3.py still issues its three writes starting with
the omitted-value encoding, so the two traces differ. -/
theorem relinquish_order_counterexample :
    simple_relinquish_re3 (fun _ => WriteOutcome.ack) ≠
      claimed_relinquish (fun _ => WriteOutcome.ack) := by
  decide

/-- C2 amended.  simple_relinquish of re3.py issues exactly three writes
in the fixed order omitted value, NULL tag, CharacterString "Null" --
the empty-container encoding is not among them -- each exactly once and
unconditionally: it does not stop at an accepted write and returns True
whatever the device answers.  relinquish_priority of re2.py issues
exactly one write, the empty-container encoding, and reports success
precisely when that single write is acknowledged. -/
theorem relinquish_actual_behavior (dev : WStrategy → WriteOutcome)
    (w : WriteOutcome) (rp : ReadOutcome) (slots : Fin 16 → ReadOutcome) :
    (simple_relinquish_re3 dev).1.map Prod.fst =
      [WStrategy.omittedValue, WStrategy.nullTagAny, WStrategy.nullString] ∧
    (simple_relinquish_re3 dev).2 = true ∧
    (relinquish_priority_re2_acts w).filter (fun a => a = Act.writeEmptyContainer) =
      [Act.writeEmptyContainer] ∧
    (relinquish_priority_re2 w rp slots = true ↔ w = WriteOutcome.ack) := by
  refine ⟨rfl, rfl, ?_, ?_⟩
  · cases w <;> decide
  · cases w <;> simp [relinquish_priority_re2]

/-- C8 counterexample.  A relinquish write that is acknowledged while
the device keeps reporting the Real value 5 in the slot and as present
value still returns success from relinquish_priority of re2.py, even
though the read-back is not the NULL sentinel. -/
theorem relinquish_verify_ignored :
    relinquish_priority_re2 WriteOutcome.ack (ReadOutcome.ok (Tagged.real 5))
      (fun _ => ReadOutcome.ok (Tagged.real 5)) = true ∧
    extract_value_re2 (some (Tagged.real 5)) ≠ HostVal.str "NULL" ∧
    Tagged.real 5 ≠ Tagged.null :=
  ⟨rfl, by decide, by decide⟩

/-- C8 amended.  After an acknowledged write, relinquish_priority of
re2.py does wait the fixed settle interval and re-read the present
value and the sixteen priority slots, but the read-back only reaches
print: the call returns True for every acknowledged write regardless of
the re-read outcomes, and False exactly when the write is rejected or
unanswered.  release_priority of rmov.py re-reads the affected slot and
prints the mismatch distinctly, but likewise has no failing terminal
state for an acknowledged write. -/
theorem relinquish_readback_logged_only (w : WriteOutcome)
    (rp rp2 : ReadOutcome) (slots slots2 : Fin 16 → ReadOutcome) (slot : ReadOutcome) :
    relinquish_priority_re2 w rp slots = relinquish_priority_re2 w rp2 slots2 ∧
    (relinquish_priority_re2 w rp slots = true ↔ w = WriteOutcome.ack) ∧
    relinquish_priority_re2_acts WriteOutcome.ack =
      [Act.writeEmptyContainer, Act.settleSleep, Act.readPresentValue] ++
        (List.range 16).map (fun i => Act.readSlot (i + 1)) ∧
    relinquish_priority_re2_acts WriteOutcome.reject = [Act.writeEmptyContainer] ∧
    relinquish_priority_re2_acts WriteOutcome.noResponse = [Act.writeEmptyContainer] ∧
    release_priority_rmov WriteOutcome.ack slot =
      (if rmov_read_slot_is_null slot then RmovReport.releasedVerified
       else RmovReport.ackButUnchanged) ∧
    release_priority_rmov WriteOutcome.reject slot = RmovReport.failedNoResponse ∧
    release_priority_rmov WriteOutcome.noResponse slot = RmovReport.failedNoResponse := by
  refine ⟨?_, ?_, rfl, rfl, rfl, rfl, rfl, rfl⟩
  · cases w <;> rfl
  · cases w <;> simp [relinquish_priority_re2]

/-- C9 counterexample.  The facade of re2.py returns None for a read
that raised an application-layer error and None for a read without a
response, and returns False for a rejected write and False for an
unanswered write, so the caller cannot tell a Reject from a
NoResponse. -/
theorem facade_reject_noresponse_conflated :
    read_property_re2 ReadOutcome.appError = read_property_re2 ReadOutcome.noResponse ∧
    write_property_re2 (HostVal.float 1) WriteOutcome.reject =
      write_property_re2 (HostVal.float 1) WriteOutcome.noResponse := by
  exact ⟨rfl, rfl⟩

/-- C9 amended.  read_property of re2.py returns the raw value on a
response and None both when the stack raised an application-layer error
and when no response arrived; write_property returns True exactly when
the value could be encoded and the write was acknowledged, and False
for a reject, for no response and for a local encoding failure: the
error taxonomy is collapsed at the facade and only reaches the console
via print. -/
theorem facade_error_collapse (v : HostVal) (t : Tagged) :
    read_property_re2 (ReadOutcome.ok t) = some t ∧
    read_property_re2 ReadOutcome.appError = Option.none ∧
    read_property_re2 ReadOutcome.noResponse = Option.none ∧
    (write_property_re2 v WriteOutcome.ack = true ↔
      write_property_value_re2 v ≠ Option.none) ∧
    write_property_re2 v WriteOutcome.reject = false ∧
    write_property_re2 v WriteOutcome.noResponse = false := by
  refine ⟨rfl, rfl, rfl, ?_, ?_, ?_⟩
  · constructor
    · intro h
      intro hnone
      rw [write_property_re2, hnone] at h
      exact Bool.false_ne_true h
    · intro h
      rw [write_property_re2]
      match hv : write_property_value_re2 v with
      | Option.none => exact absurd hv h
      | some t2 => rfl
  · rw [write_property_re2]
    match hv : write_property_value_re2 v with
    | Option.none => rfl
    | some t2 => rfl
  · rw [write_property_re2]
    match hv : write_property_value_re2 v with
    | Option.none => rfl
    | some t2 => rfl
